import Mathlib

/-!
Verification of the safe-route proximity alert engine.

This file gives a shallow embedding of the alert data model and of the
proximity-matching, sorting, sweeping, updating and authentication code of
the repository (`src/server/models/AlertSchema.js`,
`src/server/controllers/alertController.js`, `src/unnamed/part_014`,
`src/server/controllers/socketController.js`, `src/server/middleware/auth.js`)
and proves or refutes the frozen claims about it.

Numeric modelling: coordinates and distances are rationals; timestamps are
integers (milliseconds).  The helper `calculateDistance` of the source is a
pure numeric function; the store-level operations are parametrised by an
abstract distance function `dist : GeoPoint → GeoPoint → ℚ` (the
DistanceCalculator collaborator), and the concrete formula of the source's
`calculateDistance` is embedded separately over `ℝ` and related to the
canonical haversine formula.
-/

namespace SafeRoute

/-- Severity enumeration of `AlertSchema.js` (`severity: enum ["low", "medium", "high"]`). -/
inductive Severity where
  | low
  | medium
  | high
deriving DecidableEq

/-- The string stored in MongoDB for each severity value (`AlertSchema.js`). -/
def sevStr : Severity → String
  | .low => "low"
  | .medium => "medium"
  | .high => "high"

/-- Alert type enumeration of `AlertSchema.js` (`type: enum ["traffic", "flood", "weather", "route"]`). -/
inductive AlertType where
  | traffic
  | flood
  | weather
  | route
deriving DecidableEq

/-- A geographic point (latitude, longitude), `location.coordinates` is stored `[lng, lat]`
in the source; here we carry the two named components. -/
structure GeoPoint where
  lat : ℚ
  lng : ℚ
deriving DecidableEq

/-- An alert document (`AlertSchema.js`).  `lga` is written by
`socketController.js` when alerts are created and used in its queries, even
though it is not declared in `AlertSchema.js`; it is carried here as an
optional field. -/
structure Alert where
  id : ℕ
  ride : Option ℕ := none
  type : AlertType
  description : String := ""
  location : GeoPoint
  severity : Severity := .low
  distanceTrigger : ℚ := 100
  validUntil : Option ℤ := none
  triggered : Bool := false
  createdAt : ℤ := 0
  lga : Option String := none
deriving DecidableEq

/-- The `$or: [{ validUntil: { $gt: now } }, { validUntil: { $exists: false } }]`
clause shared by the alert queries: an alert passes iff `validUntil` is absent
or strictly in the future. -/
def notExpired (now : ℤ) (a : Alert) : Bool :=
  match a.validUntil with
  | none => true
  | some t => decide (now < t)

/-- Byte-wise lexicographic less-or-equal on code point sequences.  MongoDB
compares BSON strings byte-wise; for the ASCII strings `"low"`, `"medium"`,
`"high"` this coincides with code-point comparison. -/
def lexLe : List ℕ → List ℕ → Bool
  | [], _ => true
  | _ :: _, [] => false
  | a :: as, b :: bs =>
    if a < b then true
    else if b < a then false
    else lexLe as bs

/-- MongoDB string comparison (less-or-equal) used by `.sort({ severity: -1 })`:
the stored severity strings are compared lexicographically, not by the
low < medium < high ordering. -/
def mongoStrLe (s t : String) : Bool :=
  lexLe (s.data.map Char.toNat) (t.data.map Char.toNat)

/-- Ordering relation realised by `.sort({ severity: -1 })`: descending in the
MongoDB string order of the stored severity strings. -/
def sevDescRel (a b : Alert) : Prop :=
  mongoStrLe (sevStr b.severity) (sevStr a.severity) = true

instance : DecidableRel sevDescRel := fun a b => by
  unfold sevDescRel
  infer_instance

/-- Ordering relation realised by a `$near` geospatial query: ascending
distance from the query point. -/
def distAscRel (dist : GeoPoint → GeoPoint → ℚ) (p : GeoPoint) (a b : Alert) : Prop :=
  dist p a.location ≤ dist p b.location

instance (dist : GeoPoint → GeoPoint → ℚ) (p : GeoPoint) :
    DecidableRel (distAscRel dist p) := fun a b => by
  unfold distAscRel
  infer_instance

/-- The filter of the alert query of `checkTripAlerts` / `checkRideAlerts`
(`alertController.js`, `part_014`): within `maxDist` of the query point
(`$near`/`$maxDistance`), not yet triggered, and not expired. -/
def alertQueryPred (dist : GeoPoint → GeoPoint → ℚ) (now : ℤ) (p : GeoPoint)
    (maxDist : ℚ) (a : Alert) : Bool :=
  decide (dist p a.location ≤ maxDist) && !a.triggered && notExpired now a

/-- `Alert.find({location: {$near: …, $maxDistance: maxDist}, triggered: false,
$or: [validUntil-future, validUntil-absent]}).sort({severity: -1})`: the
`$near` query returns matches ordered by distance, and the `.sort` then
reorders by descending severity string. -/
def findNearUntriggered (dist : GeoPoint → GeoPoint → ℚ) (now : ℤ)
    (store : List Alert) (p : GeoPoint) (maxDist : ℚ) : List Alert :=
  ((store.filter (alertQueryPred dist now p maxDist)).insertionSort
      (distAscRel dist p)).insertionSort sevDescRel

/-- The per-alert trigger test of the loop bodies of `checkTripAlerts` and
`checkRideAlerts`: `distance <= alert.distanceTrigger`. -/
def matchesTrigger (dist : GeoPoint → GeoPoint → ℚ) (p : GeoPoint) (a : Alert) : Bool :=
  decide (dist p a.location ≤ a.distanceTrigger)

/-- `{ alert with triggered := true }`: the mutation `alert.triggered = true`. -/
def markTriggered (a : Alert) : Alert :=
  { a with triggered := true }

/-- `await alert.save()`: persist a document back to the store by `_id`. -/
def saveAlert (store : List Alert) (a : Alert) : List Alert :=
  store.map fun b => if b.id = a.id then a else b

/-- One iteration of the `for (const alert of alerts)` loop of
`checkTripAlerts` / `checkRideAlerts`: if the computed distance is within the
alert's own `distanceTrigger`, mark it triggered, save it, and push it onto
`triggeredAlerts`. -/
def triggerStep (dist : GeoPoint → GeoPoint → ℚ) (p : GeoPoint)
    (st : List Alert × List Alert) (alert : Alert) : List Alert × List Alert :=
  if matchesTrigger dist p alert then
    (saveAlert st.1 (markTriggered alert), st.2 ++ [markTriggered alert])
  else st

/-- The alert-processing core of `checkTripAlerts` (`part_014` lines 269–307,
`alertController.js` lines 294–343): query the store with a fixed 5000 m
`$maxDistance`, then re-check each candidate against its own
`distanceTrigger`, marking and saving matches.  Returns the updated store and
the `triggeredAlerts` list.  (The surrounding HTTP/authorisation bookkeeping
and the push onto `trip.alerts` do not touch the alert store and are not
modelled.) -/
def checkTripAlerts (dist : GeoPoint → GeoPoint → ℚ) (now : ℤ)
    (store : List Alert) (p : GeoPoint) : List Alert × List Alert :=
  (findNearUntriggered dist now store p 5000).foldl (triggerStep dist p) (store, [])

/-- `checkRideAlerts` (`part_014` lines 326–391, `alertController.js` lines
362–440) runs the identical query and trigger loop at the ride's pickup
location. -/
def checkRideAlerts (dist : GeoPoint → GeoPoint → ℚ) (now : ℤ)
    (store : List Alert) (p : GeoPoint) : List Alert × List Alert :=
  checkTripAlerts dist now store p

/-- `getAlertsNearLocation` (`alertController.js` lines 243–272): `$near`
query within `distance` metres, `triggered: false` (this endpoint has no
expiry clause), then `.sort({ severity: -1 })` — the comment in the source
reads "Higher severity first". -/
def getAlertsNearLocation (dist : GeoPoint → GeoPoint → ℚ)
    (store : List Alert) (p : GeoPoint) (distance : ℚ) : List Alert :=
  ((store.filter (fun a => decide (dist p a.location ≤ distance) && !a.triggered)).insertionSort
      (distAscRel dist p)).insertionSort sevDescRel

/-! ### The socket layer (`socketController.js`) -/

/-- An entry of the `userLocations` map (`socketController.js` line 49:
`userLocations.set(socket.user.userId, { latitude, longitude, lga })`).
`lastUpdated` is the field the cleanup interval (lines 237–244) inspects;
the `update-location` handler stores no such field, so it is `none` on every
record the handler writes. -/
structure UserLoc where
  latitude : ℚ
  longitude : ℚ
  lga : Option String := none
  lastUpdated : Option ℤ := none
deriving DecidableEq

/-- A socket.io room, as addressed by `io.to(...)`: `user:<id>` rooms,
bare-LGA region rooms, `trip:<id>` and `ride:<id>` rooms, and the
`location:<latGrid>:<lngGrid>` grid rooms. -/
inductive Channel where
  | user (id : ℕ)
  | lgaRoom (name : String)
  | trip (id : ℕ)
  | ride (id : ℕ)
  | grid (latCell lngCell : ℤ)
deriving DecidableEq

/-- An outbound event relevant to the proximity path of
`sendProximityAlerts`: which room it is sent to and which alert it carries. -/
inductive Emission where
  | proximityFloodAlert (ch : Channel) (alertId : ℕ) (distance : ℚ)
  | tripAlerts (ch : Channel) (alertId : ℕ)
  | rideAlerts (ch : Channel) (alertId : ℕ)
deriving DecidableEq

/-- The fields of a `Trip` document used by `sendProximityAlerts`
(`Trip.find({ userId, status: "active", lga: lga || { $exists: true } })`). -/
structure TripRec where
  id : ℕ
  userId : ℕ
  status : String
  lga : Option String := none
deriving DecidableEq

/-- The fields of a `Ride` document used by `sendProximityAlerts`
(`Ride.find({$or: [createdBy, passengers, driver], status: {$in: ["accepted",
"in_progress"]}, lga: …})`). -/
structure RideRec where
  id : ℕ
  createdBy : ℕ
  passengers : List ℕ := []
  driver : Option ℕ := none
  status : String
  lga : Option String := none
deriving DecidableEq

/-- The process-wide mutable state of `socketController.js`: the
`userLocations` map and the persisted alert collection. -/
structure SocketState where
  userLocations : List (ℕ × UserLoc)
  alertStore : List Alert
deriving DecidableEq

/-- `Map.set`: replace the value under an existing key in place, else append
a new entry (JS `Map` preserves insertion order). -/
def mapSet (m : List (ℕ × UserLoc)) (k : ℕ) (v : UserLoc) : List (ℕ × UserLoc) :=
  if m.any (fun kv => decide (kv.1 = k)) then
    m.map fun kv => if kv.1 = k then (k, v) else kv
  else m ++ [(k, v)]

/-- The `...(lga && { lga })` clause of the alert queries of
`socketController.js`: when the inbound payload carries an `lga`, the query
additionally requires the stored alert's `lga` to equal it. -/
def lgaQueryFilter (lga : Option String) (a : Alert) : Bool :=
  match lga with
  | none => true
  | some l => decide (a.lga = some l)

/-- The alert query of `sendProximityAlerts` (`socketController.js` lines
252–264, the branch without `alertId`): `$near` within 5000 m of the reported
coordinates, `triggered: false`, not expired, optional `lga` equality, sorted
by descending severity string. -/
def findProximityAlerts (dist : GeoPoint → GeoPoint → ℚ) (now : ℤ)
    (store : List Alert) (p : GeoPoint) (lga : Option String) : List Alert :=
  ((store.filter (fun a =>
      decide (dist p a.location ≤ 5000) && !a.triggered && notExpired now a
        && lgaQueryFilter lga a)).insertionSort (distAscRel dist p)).insertionSort sevDescRel

/-- `alerts.find((a) => a.severity === "high") || alerts[0]`
(`socketController.js` line 277). -/
def chooseAlertData (alerts : List Alert) : Option Alert :=
  match alerts.find? (fun a => decide (a.severity = .high)) with
  | some a => some a
  | none => alerts.head?

/-- The `lga: lga || { $exists: true }` clause of the trip and ride queries of
`sendProximityAlerts`: equality when the report carried an `lga`, otherwise
mere existence of the field. -/
def lgaMatch (reportLga entLga : Option String) : Bool :=
  match reportLga with
  | some l => decide (entLga = some l)
  | none => entLga.isSome

/-- The `tripAlerts` events emitted for one nearby user
(`socketController.js` lines 286–300): one event per active trip of that
user, to the `trip:<id>` room. -/
def tripAlertEmissions (trips : List TripRec) (u : ℕ) (lga : Option String)
    (alertId : ℕ) : List Emission :=
  (trips.filter fun tr =>
      decide (tr.userId = u) && decide (tr.status = "active") && lgaMatch lga tr.lga).map
    fun tr => Emission.tripAlerts (Channel.trip tr.id) alertId

/-- The `rideAlerts` events emitted for one nearby user
(`socketController.js` lines 302–324): one event per accepted or in-progress
ride the user participates in, to the `ride:<id>` room. -/
def rideAlertEmissions (rides : List RideRec) (u : ℕ) (lga : Option String)
    (alertId : ℕ) : List Emission :=
  (rides.filter fun r =>
      (decide (r.createdBy = u) || r.passengers.contains u || decide (r.driver = some u))
        && (decide (r.status = "accepted") || decide (r.status = "in_progress"))
        && lgaMatch lga r.lga).map
    fun r => Emission.rideAlerts (Channel.ride r.id) alertId

/-- The body of the `for (const [userId, userLocation] of
userLocations.entries())` loop of `sendProximityAlerts` (lines 266–327) for a
single entry: the reporting user is skipped; for any other user within 5000 m
of the reported position, a `proximityFloodAlert` goes to that user's
`user:<id>` room, followed by trip and ride notifications. -/
def perUserEmissions (dist : GeoPoint → GeoPoint → ℚ) (alerts : List Alert)
    (report : GeoPoint) (lga : Option String) (trips : List TripRec)
    (rides : List RideRec) (currentUserId : ℕ) (entry : ℕ × UserLoc) : List Emission :=
  if entry.1 = currentUserId then []
  else
    let distance := dist ⟨entry.2.latitude, entry.2.longitude⟩ report
    if distance ≤ 5000 then
      match chooseAlertData alerts with
      | some alertData =>
        Emission.proximityFloodAlert (Channel.user entry.1) alertData.id distance
          :: (tripAlertEmissions trips entry.1 lga alertData.id
              ++ rideAlertEmissions rides entry.1 lga alertData.id)
      | none => []
    else []

/-- `sendProximityAlerts` (`socketController.js` lines 248–328), in the branch
without `alertId` (the one `update-location` uses): query the nearby
untriggered unexpired alerts, then loop over all stored user locations
emitting events.  The alert store is read but never written (the function
contains no `alert.save()` and never touches `triggered`); the trip-document
bookkeeping does not touch alerts and is not modelled. -/
def sendProximityAlerts (dist : GeoPoint → GeoPoint → ℚ) (now : ℤ)
    (store : List Alert) (userLocations : List (ℕ × UserLoc)) (report : GeoPoint)
    (lga : Option String) (currentUserId : ℕ) (trips : List TripRec)
    (rides : List RideRec) : List Emission :=
  (userLocations.map
      (perUserEmissions dist (findProximityAlerts dist now store report lga)
        report lga trips rides currentUserId)).flatten

/-- The payload of the `update-location` event (`locationSchema`). -/
structure LocationData where
  latitude : ℚ
  longitude : ℚ
  lga : Option String := none
deriving DecidableEq

/-- The `update-location` handler (`socketController.js` lines 46–66):
store `{ latitude, longitude, lga }` in `userLocations` (note: no
`lastUpdated` field is written), then run `sendProximityAlerts` for the
reporting user.  Returns the new state and the emitted events.  (The
`socket.join` room subscriptions do not emit events and are not modelled.) -/
def updateLocation (dist : GeoPoint → GeoPoint → ℚ) (now : ℤ) (st : SocketState)
    (trips : List TripRec) (rides : List RideRec) (userId : ℕ)
    (data : LocationData) : SocketState × List Emission :=
  let loc : UserLoc :=
    { latitude := data.latitude, longitude := data.longitude,
      lga := data.lga, lastUpdated := none }
  let ul := mapSet st.userLocations userId loc
  ({ st with userLocations := ul },
    sendProximityAlerts dist now st.alertStore ul
      ⟨data.latitude, data.longitude⟩ data.lga userId trips rides)

/-- The cleanup interval of `initSockets` (`socketController.js` lines
237–244): every 10 minutes, delete every entry whose `lastUpdated` is falsy
(absent, or the epoch value `0`) or older than `now − 30` minutes. -/
def sweepStale (now : ℤ) (userLocations : List (ℕ × UserLoc)) : List (ℕ × UserLoc) :=
  let threshold := now - 30 * 60 * 1000
  userLocations.filter fun kv =>
    match kv.2.lastUpdated with
    | none => false
    | some t => !(decide (t = 0)) && !(decide (t < threshold))

/-! ### `get-nearby-hotspots` (`socketController.js` lines 31–36 and 116–139) -/

/-- The zod `hotspotSchema`: `radius: z.number().default(5000)` — an omitted
radius parses to 5000. -/
def hotspotRadius (radius : Option ℚ) : ℚ :=
  radius.getD 5000

/-- The `get-nearby-hotspots` handler query: flood alerts within the parsed
radius, untriggered, unexpired, optional `lga` equality, sorted by the
severity string descending, limited to 10 documents. -/
def getNearbyHotspots (dist : GeoPoint → GeoPoint → ℚ) (now : ℤ)
    (store : List Alert) (p : GeoPoint) (radius : Option ℚ)
    (lga : Option String) : List Alert :=
  (((store.filter (fun a =>
        decide (dist p a.location ≤ hotspotRadius radius)
          && decide (a.type = .flood) && !a.triggered && notExpired now a
          && lgaQueryFilter lga a)).insertionSort
      (distAscRel dist p)).insertionSort sevDescRel).take 10

/-! ### `updateAlert` (`alertController.js` lines 152–209, `part_014` lines 149–191) -/

/-- The update payload of `updateAlert`: each field is applied only when
present in the request body (`if (severity) alert.severity = severity;` and
so on). -/
structure AlertUpdateReq where
  ride : Option (Option ℕ) := none
  type : Option AlertType := none
  description : Option String := none
  location : Option GeoPoint := none
  severity : Option Severity := none
  distanceTrigger : Option ℚ := none
  validUntil : Option ℤ := none
  triggered : Option Bool := none

/-- The field-by-field assignment block of `updateAlert`: every provided
field overwrites the stored one unconditionally; in particular a provided
`severity` is applied with no comparison against the current value. -/
def applyUpdate (alert : Alert) (u : AlertUpdateReq) : Alert :=
  { alert with
    ride := match u.ride with | some r => r | none => alert.ride
    type := u.type.getD alert.type
    description := u.description.getD alert.description
    location := u.location.getD alert.location
    severity := u.severity.getD alert.severity
    distanceTrigger := u.distanceTrigger.getD alert.distanceTrigger
    validUntil := match u.validUntil with | some v => some v | none => alert.validUntil
    triggered := u.triggered.getD alert.triggered }

/-- `updateAlert`: `findById`, 404 (`none`) when absent, otherwise apply the
provided fields and `save`.  Returns the updated store and the updated
document. -/
def updateAlert (store : List Alert) (id : ℕ) (u : AlertUpdateReq) :
    Option (List Alert × Alert) :=
  match store.find? (fun a => decide (a.id = id)) with
  | none => none
  | some alert => some (saveAlert store (applyUpdate alert u), applyUpdate alert u)

/-! ### Socket authentication (`auth.js` lines 38–52) -/

/-- `socketAuthenticate`: reject with `"No token provided"` when the
handshake carries no token, reject with `"Invalid token"` when `jwt.verify`
fails, otherwise accept with the decoded user.  `verify` abstracts
`jwt.verify` (the external JWT collaborator): `none` models a thrown
verification error. -/
def socketAuthenticate (verify : String → Option ℕ) (token : Option String) :
    Except String ℕ :=
  match token with
  | none => Except.error "No token provided"
  | some t =>
    match verify t with
    | some u => Except.ok u
    | none => Except.error "Invalid token"

/-- `initSockets` installs `socketAuthenticate` via `io.use` before the
`connection` handler; the per-socket event handlers are registered only
inside the `connection` callback, so a connection rejected by the middleware
has no events processed at all.  The function returns which inbound events
of a connection reach a handler. -/
def connectionEventsHandled (verify : String → Option ℕ) (token : Option String)
    (events : List LocationData) : List LocationData :=
  match socketAuthenticate verify token with
  | Except.ok _ => events
  | Except.error _ => []

/-! ### The distance formula (`calculateDistance`, `deg2rad`) over `ℝ` -/

/-- `Math.atan2(y, x)` for finite arguments: the angle of the point `(x, y)`,
in `(−π, π]`, with `atan2 0 0 = 0`. -/
noncomputable def atan2 (y x : ℝ) : ℝ :=
  if 0 < x then Real.arctan (y / x)
  else if x < 0 then
    if 0 ≤ y then Real.arctan (y / x) + Real.pi
    else Real.arctan (y / x) - Real.pi
  else
    if 0 < y then Real.pi / 2
    else if y < 0 then -(Real.pi / 2)
    else 0

/-- `deg2rad` (`socketController.js` lines 342–344). -/
noncomputable def deg2rad (deg : ℝ) : ℝ :=
  deg * (Real.pi / 180)

/-- `calculateDistance` of `socketController.js` (lines 331–340): haversine
with `R = 6371`, result in kilometres. -/
noncomputable def calculateDistanceKm (lat1 lon1 lat2 lon2 : ℝ) : ℝ :=
  let R : ℝ := 6371
  let dLat := deg2rad (lat2 - lat1)
  let dLon := deg2rad (lon2 - lon1)
  let a :=
    Real.sin (dLat / 2) * Real.sin (dLat / 2) +
      Real.cos (deg2rad lat1) * Real.cos (deg2rad lat2) *
        Real.sin (dLon / 2) * Real.sin (dLon / 2)
  let c := 2 * atan2 (Real.sqrt a) (Real.sqrt (1 - a))
  R * c

/-- `calculateDistance` of `alertController.js` (lines 443–456) and
`part_014` (lines 394–405): haversine with `R = 6371e3`, result in metres. -/
noncomputable def calculateDistanceMeters (lat1 lon1 lat2 lon2 : ℝ) : ℝ :=
  let R : ℝ := 6371e3
  let phi1 := lat1 * Real.pi / 180
  let phi2 := lat2 * Real.pi / 180
  let dPhi := (lat2 - lat1) * Real.pi / 180
  let dLam := (lon2 - lon1) * Real.pi / 180
  let a :=
    Real.sin (dPhi / 2) * Real.sin (dPhi / 2) +
      Real.cos phi1 * Real.cos phi2 * Real.sin (dLam / 2) * Real.sin (dLam / 2)
  let c := 2 * atan2 (Real.sqrt a) (Real.sqrt (1 - a))
  R * c

/-- Modelled from the spec: the canonical haversine great-circle formula on a
sphere of radius 6371 km, in metres —
`R * 2 * atan2(sqrt(a), sqrt(1-a))` with
`a = sin^2(dLat/2) + cos(lat1) * cos(lat2) * sin^2(dLon/2)`, latitudes and
deltas converted from degrees to radians.  This is the comparison definition
the source's `calculateDistance` implementations are checked against. -/
noncomputable def haversineCanonical (lat1 lon1 lat2 lon2 : ℝ) : ℝ :=
  let R : ℝ := 6371000
  let dLat := (lat2 - lat1) * Real.pi / 180
  let dLon := (lon2 - lon1) * Real.pi / 180
  let a :=
    Real.sin (dLat / 2) ^ 2 +
      Real.cos (lat1 * Real.pi / 180) * Real.cos (lat2 * Real.pi / 180) *
        Real.sin (dLon / 2) ^ 2
  R * (2 * atan2 (Real.sqrt a) (Real.sqrt (1 - a)))

/-! ### Proof-infrastructure definitions

`saveAlert` is a per-entry map of the store, so a sequence of saves is the
map of a per-entry fold; `writeOne`, `writeAll` and `applySaves` package
that view of the trigger loop's store updates. -/

/-- Apply one save of `markTriggered c` to a single store entry. -/
def writeOne (b c : Alert) : Alert :=
  if b.id = c.id then markTriggered c else b

/-- Apply a sequence of saves to a single store entry. -/
def writeAll (ds : List Alert) (b : Alert) : Alert :=
  ds.foldl writeOne b

/-- The accumulated store updates of the trigger loop: save
`markTriggered c` for each matched candidate `c` in order. -/
def applySaves (st ds : List Alert) : List Alert :=
  ds.foldl (fun s c => saveAlert s (markTriggered c)) st

/-! ### Concrete scenario constants used in the counterexamples and witnesses -/

/-- A distance oracle returning the constant `q` (metres) for every pair of
points; used to realise concrete scenarios of the parametrised model. -/
def distConst (q : ℚ) : GeoPoint → GeoPoint → ℚ := fun _ _ => q

/-- An arbitrary concrete query point. -/
def p0 : GeoPoint := ⟨7, 4⟩

/-- An untriggered, never-expiring flood alert whose `distanceTrigger`
(6000 m) exceeds the fixed 5000 m query radius of the trigger endpoints. -/
def alertWide : Alert :=
  { id := 1, type := .flood, location := ⟨6, 3⟩, severity := .high,
    distanceTrigger := 6000 }

/-- A low-severity untriggered flood alert. -/
def alertLow : Alert :=
  { id := 1, type := .flood, location := ⟨6, 3⟩, severity := .low }

/-- A high-severity untriggered flood alert at the same location. -/
def alertHigh : Alert :=
  { id := 2, type := .flood, location := ⟨6, 3⟩, severity := .high }

/-- An alert whose `validUntil` lies in the past for every `now ≥ 0`. -/
def alertExpired : Alert :=
  { id := 3, type := .flood, location := ⟨6, 3⟩, severity := .high,
    distanceTrigger := 1000, validUntil := some (-5) }

/-- The hazard of the spec's concrete scenario: a flood alert with trigger
radius 1000 m, severity high, valid for 24 h.  (The spec places it at
`(6.5244, 3.3792)`; coordinates enter the model only through the abstract
distance oracle, which the scenarios instantiate with the constant 40 m
function, so integer stand-in coordinates are used to keep the terms
kernel-evaluable.) -/
def alertLagos : Alert :=
  { id := 1, type := .flood, location := ⟨6, 3⟩, severity := .high,
    distanceTrigger := 1000, validUntil := some 86400000 }

/-- Socket state holding only the Lagos hazard, with no connected users yet. -/
def stateLagos : SocketState :=
  { userLocations := [], alertStore := [alertLagos] }

/-- Socket state holding the Lagos hazard and one already-present other user
(id 8) close to the hazard. -/
def stateLagosTwo : SocketState :=
  { userLocations := [(8, { latitude := 6, longitude := 3 })],
    alertStore := [alertLagos] }

/-- The position report of the spec's concrete scenario (the spec's
`(6.5247, 3.3795)`, with the same integer stand-in convention as
`alertLagos`). -/
def reportLagos : LocationData :=
  { latitude := 6, longitude := 3, lga := none }

/-- A high-severity alert used to exercise `updateAlert` downgrades. -/
def alertSevHigh : Alert :=
  { id := 4, type := .flood, location := ⟨6, 3⟩, severity := .high }

/-- An update request carrying only `severity: "low"`. -/
def updLow : AlertUpdateReq := { severity := some .low }

/-- A JWT verifier that rejects every token. -/
def verifyNone : String → Option ℕ := fun _ => none

/-! ## Structural lemmas about the trigger loop -/

theorem markTriggered_id (a : Alert) : (markTriggered a).id = a.id := rfl

theorem markTriggered_triggered (a : Alert) : (markTriggered a).triggered = true := rfl

theorem foldl_triggerStep_snd (dist : GeoPoint → GeoPoint → ℚ) (p : GeoPoint) :
    ∀ (cs st acc : List Alert),
      (cs.foldl (triggerStep dist p) (st, acc)).2
        = acc ++ (cs.filter (matchesTrigger dist p)).map markTriggered := by
  intro cs
  induction cs with
  | nil => intro st acc; simp
  | cons c cs ih =>
    intro st acc
    cases h : matchesTrigger dist p c with
    | false => simp [triggerStep, h, ih, List.filter_cons]
    | true => simp [triggerStep, h, ih, List.filter_cons]

theorem foldl_triggerStep_fst (dist : GeoPoint → GeoPoint → ℚ) (p : GeoPoint) :
    ∀ (cs st acc : List Alert),
      (cs.foldl (triggerStep dist p) (st, acc)).1
        = applySaves st (cs.filter (matchesTrigger dist p)) := by
  intro cs
  induction cs with
  | nil => intro st acc; simp [applySaves]
  | cons c cs ih =>
    intro st acc
    cases h : matchesTrigger dist p c with
    | false => simp [triggerStep, h, ih, List.filter_cons]
    | true => simp [triggerStep, h, ih, List.filter_cons, applySaves]

theorem saveAlert_mark_eq_map (st : List Alert) (d : Alert) :
    saveAlert st (markTriggered d) = st.map fun b => writeOne b d := rfl

theorem applySaves_eq_map : ∀ (ds st : List Alert), applySaves st ds = st.map (writeAll ds) := by
  intro ds
  induction ds with
  | nil =>
    intro st
    show st = st.map (writeAll [])
    have h : st.map (writeAll []) = st.map id := List.map_congr_left fun b _ => rfl
    rw [h, List.map_id]
  | cons d ds ih =>
    intro st
    have h1 : applySaves st (d :: ds) = applySaves (saveAlert st (markTriggered d)) ds := rfl
    rw [h1, ih, saveAlert_mark_eq_map, List.map_map]
    rfl

theorem writeOne_id (b c : Alert) : (writeOne b c).id = b.id := by
  unfold writeOne
  split
  · rename_i h; rw [markTriggered_id, h]
  · rfl

theorem writeAll_id : ∀ (ds : List Alert) (b : Alert), (writeAll ds b).id = b.id := by
  intro ds
  induction ds with
  | nil => intro b; rfl
  | cons d ds ih =>
    intro b
    have : writeAll (d :: ds) b = writeAll ds (writeOne b d) := rfl
    rw [this, ih, writeOne_id]

theorem writeAll_triggered_mono :
    ∀ (ds : List Alert) (b : Alert), b.triggered = true → (writeAll ds b).triggered = true := by
  intro ds
  induction ds with
  | nil => intro b hb; exact hb
  | cons d ds ih =>
    intro b hb
    have h1 : writeAll (d :: ds) b = writeAll ds (writeOne b d) := rfl
    rw [h1]
    apply ih
    unfold writeOne
    split
    · rfl
    · exact hb

theorem writeAll_not_touched :
    ∀ (ds : List Alert) (b : Alert), (∀ c ∈ ds, c.id ≠ b.id) → writeAll ds b = b := by
  intro ds
  induction ds with
  | nil => intro b _; rfl
  | cons d ds ih =>
    intro b hc
    have h1 : writeAll (d :: ds) b = writeAll ds (writeOne b d) := rfl
    have hd : writeOne b d = b := by
      unfold writeOne
      rw [if_neg]
      intro h
      exact hc d (List.mem_cons_self d ds) h.symm
    rw [h1, hd]
    exact ih b fun c hcm => hc c (List.mem_cons_of_mem d hcm)

theorem writeAll_triggered_of_mem :
    ∀ (ds : List Alert) (b : Alert), (∃ c ∈ ds, c.id = b.id) →
      (writeAll ds b).triggered = true := by
  intro ds
  induction ds with
  | nil => intro b h; rcases h with ⟨c, hc, _⟩; cases hc
  | cons d ds ih =>
    intro b h
    have h1 : writeAll (d :: ds) b = writeAll ds (writeOne b d) := rfl
    rw [h1]
    by_cases hbd : b.id = d.id
    · have hw : writeOne b d = markTriggered d := by unfold writeOne; rw [if_pos hbd]
      rw [hw]
      exact writeAll_triggered_mono ds _ (markTriggered_triggered d)
    · have hw : writeOne b d = b := by
        unfold writeOne
        rw [if_neg hbd]
      rw [hw]
      rcases h with ⟨c, hcm, hcid⟩
      rcases List.mem_cons.mp hcm with hcd | hcds
      · exact absurd (hcd ▸ hcid).symm hbd
      · exact ih b ⟨c, hcds, hcid⟩

theorem writeAll_eq_mark :
    ∀ (ds : List Alert) (a b : Alert), (ds.map Alert.id).Nodup → a ∈ ds → b.id = a.id →
      writeAll ds b = markTriggered a := by
  intro ds
  induction ds with
  | nil => intro a b _ ha _; cases ha
  | cons d ds ih =>
    intro a b hnd ha hid
    have h1 : writeAll (d :: ds) b = writeAll ds (writeOne b d) := rfl
    have hnd' : d.id ∉ ds.map Alert.id ∧ (ds.map Alert.id).Nodup := by
      simpa using hnd
    rcases List.mem_cons.mp ha with had | hads
    · subst had
      have hw : writeOne b a = markTriggered a := by unfold writeOne; rw [if_pos hid]
      rw [h1, hw]
      apply writeAll_not_touched
      intro c hcm h
      exact hnd'.1 (by rw [markTriggered_id] at h; exact h ▸ List.mem_map_of_mem Alert.id hcm)
    · have hda : d.id ≠ a.id := by
        intro h
        exact hnd'.1 (h ▸ List.mem_map_of_mem Alert.id hads)
      have hw : writeOne b d = b := by
        unfold writeOne
        rw [if_neg]
        rw [hid]
        exact fun h => hda h.symm
      rw [h1, hw]
      exact ih a b hnd'.2 hads hid

theorem checkTripAlerts_snd (dist : GeoPoint → GeoPoint → ℚ) (now : ℤ)
    (store : List Alert) (p : GeoPoint) :
    (checkTripAlerts dist now store p).2
      = ((findNearUntriggered dist now store p 5000).filter
          (matchesTrigger dist p)).map markTriggered := by
  unfold checkTripAlerts
  rw [foldl_triggerStep_snd]
  simp

theorem checkTripAlerts_fst (dist : GeoPoint → GeoPoint → ℚ) (now : ℤ)
    (store : List Alert) (p : GeoPoint) :
    (checkTripAlerts dist now store p).1
      = store.map (writeAll ((findNearUntriggered dist now store p 5000).filter
          (matchesTrigger dist p))) := by
  unfold checkTripAlerts
  rw [foldl_triggerStep_fst, applySaves_eq_map]

theorem findNearUntriggered_perm (dist : GeoPoint → GeoPoint → ℚ) (now : ℤ)
    (store : List Alert) (p : GeoPoint) (maxDist : ℚ) :
    (findNearUntriggered dist now store p maxDist).Perm
      (store.filter (alertQueryPred dist now p maxDist)) := by
  unfold findNearUntriggered
  exact (List.perm_insertionSort _ _).trans (List.perm_insertionSort _ _)

theorem mem_findNearUntriggered {dist : GeoPoint → GeoPoint → ℚ} {now : ℤ}
    {store : List Alert} {p : GeoPoint} {maxDist : ℚ} {a : Alert} :
    a ∈ findNearUntriggered dist now store p maxDist
      ↔ a ∈ store ∧ alertQueryPred dist now p maxDist a = true := by
  rw [(findNearUntriggered_perm dist now store p maxDist).mem_iff, List.mem_filter]

theorem findNearUntriggered_nodup {dist : GeoPoint → GeoPoint → ℚ} {now : ℤ}
    {store : List Alert} {p : GeoPoint} {maxDist : ℚ}
    (h : (store.map Alert.id).Nodup) :
    ((findNearUntriggered dist now store p maxDist).map Alert.id).Nodup := by
  have hperm := (findNearUntriggered_perm dist now store p maxDist).map Alert.id
  rw [hperm.nodup_iff]
  exact List.Nodup.sublist (List.Sublist.map Alert.id (List.filter_sublist store)) h

theorem nodup_id_inj {store : List Alert} (h : (store.map Alert.id).Nodup)
    {x y : Alert} (hx : x ∈ store) (hy : y ∈ store) (hxy : x.id = y.id) : x = y :=
  List.inj_on_of_nodup_map h hx hy hxy

theorem mem_of_mem_checkTripAlerts_snd {dist : GeoPoint → GeoPoint → ℚ} {now : ℤ}
    {store : List Alert} {p : GeoPoint} {b : Alert}
    (hb : b ∈ (checkTripAlerts dist now store p).2) :
    ∃ c, c ∈ findNearUntriggered dist now store p 5000 ∧
      matchesTrigger dist p c = true ∧ b = markTriggered c := by
  rw [checkTripAlerts_snd] at hb
  rcases List.mem_map.mp hb with ⟨c, hc, hbc⟩
  rcases List.mem_filter.mp hc with ⟨hcm, hcmt⟩
  exact ⟨c, hcm, hcmt, hbc.symm⟩

/-! ## C1 -/

/-- C1, counterexample.  `alertWide` is untriggered, never expires, and its
`distanceTrigger` (6000 m) is at least the evaluation distance (5500 m), so
the claim says the proximity check returns it once and marks it triggered;
but `checkTripAlerts` returns an empty `triggeredAlerts` list and leaves the
store untouched, because the fixed 5000 m `$maxDistance` of the query
excludes the alert before the per-alert radius test runs. -/
theorem claim1_counterexample :
    distConst 5500 p0 alertWide.location ≤ alertWide.distanceTrigger ∧
    alertWide.triggered = false ∧
    notExpired 0 alertWide = true ∧
    (checkTripAlerts (distConst 5500) 0 [alertWide] p0).2 = [] ∧
    (checkTripAlerts (distConst 5500) 0 [alertWide] p0).1 = [alertWide] := by
  refine ⟨by norm_num [distConst, alertWide], rfl, rfl, ?_, ?_⟩ <;> decide

/-- C1, amended: for every stored alert `a` with `triggered = false` and
`validUntil` absent or in the future, and every evaluation point whose
distance to `a.location` is at most `a.distanceTrigger` AND at most the
fixed 5000 m query radius, the proximity check includes `a` exactly once in
the returned `triggeredAlerts` (with its flag set) and sets `triggered`
to `true` on the store entry with `a`'s id. -/
theorem claim1_trigger_within_query_radius
    (dist : GeoPoint → GeoPoint → ℚ) (now : ℤ) (store : List Alert)
    (p : GeoPoint) (a : Alert)
    (hnodup : (store.map Alert.id).Nodup) (ha : a ∈ store)
    (htrig : a.triggered = false) (hexp : notExpired now a = true)
    (hd1 : dist p a.location ≤ a.distanceTrigger)
    (hd2 : dist p a.location ≤ 5000) :
    ((checkTripAlerts dist now store p).2.map Alert.id).count a.id = 1 ∧
    markTriggered a ∈ (checkTripAlerts dist now store p).2 ∧
    ∀ b ∈ (checkTripAlerts dist now store p).1, b.id = a.id → b.triggered = true := by
  have hq : alertQueryPred dist now p 5000 a = true := by
    simp [alertQueryPred, htrig, hexp, hd2]
  have hacs : a ∈ findNearUntriggered dist now store p 5000 :=
    mem_findNearUntriggered.mpr ⟨ha, hq⟩
  have hm : matchesTrigger dist p a = true := by simp [matchesTrigger, hd1]
  have hafil : a ∈ (findNearUntriggered dist now store p 5000).filter
      (matchesTrigger dist p) := List.mem_filter.mpr ⟨hacs, hm⟩
  have hnodfil : (((findNearUntriggered dist now store p 5000).filter
      (matchesTrigger dist p)).map Alert.id).Nodup :=
    List.Nodup.sublist (List.Sublist.map Alert.id (List.filter_sublist _))
      (findNearUntriggered_nodup hnodup)
  refine ⟨?_, ?_, ?_⟩
  · rw [checkTripAlerts_snd, List.map_map]
    have hmap : ((findNearUntriggered dist now store p 5000).filter
        (matchesTrigger dist p)).map (Alert.id ∘ markTriggered)
        = ((findNearUntriggered dist now store p 5000).filter
            (matchesTrigger dist p)).map Alert.id :=
      List.map_congr_left fun c _ => markTriggered_id c
    rw [hmap]
    exact List.count_eq_one_of_mem hnodfil (List.mem_map_of_mem Alert.id hafil)
  · rw [checkTripAlerts_snd]
    exact List.mem_map_of_mem markTriggered hafil
  · intro b hb hid
    rw [checkTripAlerts_fst] at hb
    rcases List.mem_map.mp hb with ⟨b0, hb0, hbw⟩
    have hb0id : b0.id = a.id := by
      rw [← hbw] at hid
      rw [writeAll_id] at hid
      exact hid
    have := writeAll_eq_mark _ a b0 hnodfil hafil hb0id
    rw [← hbw, this]
    exact markTriggered_triggered a

/-- C1, witness: the amended theorem applied to the concrete Lagos flood
hazard at constant distance 40 m, which is within both its 1000 m trigger
radius and the 5000 m query radius. -/
theorem claim1_witness :
    ((checkTripAlerts (distConst 40) 0 [alertLagos] p0).2.map Alert.id).count alertLagos.id = 1 ∧
    markTriggered alertLagos ∈ (checkTripAlerts (distConst 40) 0 [alertLagos] p0).2 ∧
    ∀ b ∈ (checkTripAlerts (distConst 40) 0 [alertLagos] p0).1,
      b.id = alertLagos.id → b.triggered = true :=
  claim1_trigger_within_query_radius (distConst 40) 0 [alertLagos] p0 alertLagos
    (by decide) (by decide) rfl (by decide) (by decide) (by decide)

/-! ## C2 -/

theorem all_zip_map {α : Type} (f : α → α) (P : α × α → Bool) :
    ∀ l : List α, (∀ a ∈ l, P (f a, a) = true) → ((l.map f).zip l).all P = true := by
  intro l
  induction l with
  | nil => intro _; rfl
  | cons a l ih =>
    intro h
    simp only [List.map_cons, List.zip_cons_cons, List.all_cons, Bool.and_eq_true]
    exact ⟨h a (List.mem_cons_self a l), ih fun b hb => h b (List.mem_cons_of_mem a hb)⟩

/-- C2: running the proximity check twice in succession with the same
evaluation point and the store produced by the first run, the second run's
`triggeredAlerts` contains no alert id that the first run triggered, and
within one run the `triggered` flag is monotone: every store entry keeps its
id, an entry triggered before stays triggered, and the store keeps its
length. -/
theorem claim2_no_retrigger_and_monotone (dist : GeoPoint → GeoPoint → ℚ)
    (now : ℤ) (store : List Alert) (p : GeoPoint) :
    ((checkTripAlerts dist now (checkTripAlerts dist now store p).1 p).2.all
        fun b => !decide (b.id ∈ (checkTripAlerts dist now store p).2.map Alert.id)) = true ∧
    (((checkTripAlerts dist now store p).1.zip store).all
        fun ba => decide (ba.1.id = ba.2.id) && (ba.1.triggered || !ba.2.triggered)) = true ∧
    (checkTripAlerts dist now store p).1.length = store.length := by
  refine ⟨?_, ?_, ?_⟩
  · rw [List.all_eq_true]
    intro b hb
    rcases mem_of_mem_checkTripAlerts_snd hb with ⟨c, hcm, _, hbc⟩
    have hcq := (mem_findNearUntriggered.mp hcm).2
    have hcs1 := (mem_findNearUntriggered.mp hcm).1
    have hct : c.triggered = false := by
      simp only [alertQueryPred, Bool.and_eq_true, Bool.not_eq_true'] at hcq
      exact hcq.1.2
    simp only [Bool.not_eq_true', decide_eq_false_iff_not]
    intro hmem
    rw [checkTripAlerts_snd, List.map_map] at hmem
    have hmap : ((findNearUntriggered dist now store p 5000).filter
        (matchesTrigger dist p)).map (Alert.id ∘ markTriggered)
        = ((findNearUntriggered dist now store p 5000).filter
            (matchesTrigger dist p)).map Alert.id :=
      List.map_congr_left fun x _ => markTriggered_id x
    rw [hmap] at hmem
    rcases List.mem_map.mp hmem with ⟨d, hdm, hdid⟩
    rw [checkTripAlerts_fst] at hcs1
    rcases List.mem_map.mp hcs1 with ⟨c0, hc0, hcw⟩
    have : (writeAll ((findNearUntriggered dist now store p 5000).filter
        (matchesTrigger dist p)) c0).triggered = true := by
      apply writeAll_triggered_of_mem
      refine ⟨d, hdm, ?_⟩
      rw [hdid, hbc, markTriggered_id, ← hcw, writeAll_id]
    rw [hcw] at this
    rw [this] at hct
    cases hct
  · rw [checkTripAlerts_fst]
    apply all_zip_map
    intro a _
    simp only [Bool.and_eq_true, decide_eq_true_eq, Bool.or_eq_true, Bool.not_eq_true']
    refine ⟨writeAll_id _ a, ?_⟩
    cases ht : a.triggered with
    | true => exact Or.inl (writeAll_triggered_mono _ a ht)
    | false => exact Or.inr rfl
  · rw [checkTripAlerts_fst, List.length_map]

/-! ## C3 -/

theorem findProximityAlerts_perm (dist : GeoPoint → GeoPoint → ℚ) (now : ℤ)
    (store : List Alert) (p : GeoPoint) (lga : Option String) :
    (findProximityAlerts dist now store p lga).Perm
      (store.filter fun a =>
        decide (dist p a.location ≤ 5000) && !a.triggered && notExpired now a
          && lgaQueryFilter lga a) := by
  unfold findProximityAlerts
  exact (List.perm_insertionSort _ _).trans (List.perm_insertionSort _ _)

theorem chooseAlertData_mem {alerts : List Alert} {x : Alert}
    (h : chooseAlertData alerts = some x) : x ∈ alerts := by
  unfold chooseAlertData at h
  split at h
  · rename_i y hf
    cases h
    exact List.mem_of_find?_eq_some hf
  · exact List.mem_of_mem_head? (Option.mem_def.mpr h)

/-- Every `proximityFloodAlert` event emitted by `sendProximityAlerts`
carries the id of an alert returned by its store query and is addressed to
the `user:<id>` room of a user other than the reporting one who is present
in the `userLocations` table it iterates over and whose stored position is
within 5000 m of the reported one; the event's distance field is exactly
that user-to-report distance. -/
theorem sendProximityAlerts_prox_shape (dist : GeoPoint → GeoPoint → ℚ)
    (now : ℤ) (store : List Alert) (ul : List (ℕ × UserLoc)) (report : GeoPoint)
    (lga : Option String) (cu : ℕ) (trips : List TripRec) (rides : List RideRec) :
    ∀ em ∈ sendProximityAlerts dist now store ul report lga cu trips rides,
      ∀ ch aid d, em = Emission.proximityFloodAlert ch aid d →
        (∃ x ∈ findProximityAlerts dist now store report lga, aid = x.id) ∧
        ∃ u uloc, (u, uloc) ∈ ul ∧ ch = Channel.user u ∧ u ≠ cu ∧
          dist ⟨uloc.latitude, uloc.longitude⟩ report ≤ 5000 ∧
          d = dist ⟨uloc.latitude, uloc.longitude⟩ report := by
  intro em hem ch aid d hshape
  unfold sendProximityAlerts at hem
  rw [List.mem_flatten] at hem
  rcases hem with ⟨l, hl, heml⟩
  rcases List.mem_map.mp hl with ⟨entry, hentryul, hentry⟩
  rw [← hentry] at heml
  unfold perUserEmissions at heml
  by_cases hcu : entry.1 = cu
  · rw [if_pos hcu] at heml
    cases heml
  · rw [if_neg hcu] at heml
    by_cases hdist : dist ⟨entry.2.latitude, entry.2.longitude⟩ report ≤ 5000
    · rw [if_pos hdist] at heml
      cases hch : chooseAlertData (findProximityAlerts dist now store report lga) with
      | none =>
        rw [hch] at heml
        cases heml
      | some alertData =>
        rw [hch] at heml
        rcases List.mem_cons.mp heml with hhead | htail
        · rw [hshape] at hhead
          injection hhead with h1 h2 h3
          exact ⟨⟨alertData, chooseAlertData_mem hch, h2⟩,
            entry.1, entry.2, by simpa using hentryul, h1, hcu, hdist, h3⟩
        · exfalso
          rcases List.mem_append.mp htail with htr | hrd
          · rcases List.mem_map.mp htr with ⟨tr, _, htrm⟩
            rw [hshape] at htrm
            cases htrm
          · rcases List.mem_map.mp hrd with ⟨r, _, hrdm⟩
            rw [hshape] at hrdm
            cases hrdm
    · rw [if_neg hdist] at heml
      cases heml

/-- C3: an alert whose `validUntil` is in the past at evaluation time is
never returned by the proximity check and never marked triggered (its store
entry is left exactly as it was, whatever its `triggered` state and however
small the distance), and the socket proximity path emits no
`proximityFloodAlert` carrying it. -/
theorem claim3_expired_never_matched (dist : GeoPoint → GeoPoint → ℚ)
    (now : ℤ) (store : List Alert) (p : GeoPoint) (ul : List (ℕ × UserLoc))
    (lga : Option String) (cu : ℕ) (trips : List TripRec) (rides : List RideRec)
    (a : Alert) (t : ℤ)
    (hnodup : (store.map Alert.id).Nodup) (ha : a ∈ store)
    (hvu : a.validUntil = some t) (ht : t < now) :
    a.id ∉ (checkTripAlerts dist now store p).2.map Alert.id ∧
    (∀ b ∈ (checkTripAlerts dist now store p).1, b.id = a.id → b = a) ∧
    ∀ em ∈ sendProximityAlerts dist now store ul p lga cu trips rides,
      ∀ ch d, em ≠ Emission.proximityFloodAlert ch a.id d := by
  have hlt : ¬ now < t := not_lt.mpr ht.le
  have hexp : notExpired now a = false := by
    unfold notExpired
    rw [hvu]
    simp [hlt]
  have hpredfalse : ∀ c, c ∈ store → c.id = a.id →
      ∀ {pr : Alert → Bool}, (∀ x, pr x = true → notExpired now x = true) →
        pr c = true → False := by
    intro c hcm hcid pr hpr hc
    have hca : c = a := nodup_id_inj hnodup hcm ha hcid
    rw [hca] at hc
    rw [hpr a hc] at hexp
    cases hexp
  refine ⟨?_, ?_, ?_⟩
  · intro hmem
    rw [checkTripAlerts_snd, List.map_map] at hmem
    have hmap : ((findNearUntriggered dist now store p 5000).filter
        (matchesTrigger dist p)).map (Alert.id ∘ markTriggered)
        = ((findNearUntriggered dist now store p 5000).filter
            (matchesTrigger dist p)).map Alert.id :=
      List.map_congr_left fun x _ => markTriggered_id x
    rw [hmap] at hmem
    rcases List.mem_map.mp hmem with ⟨d, hdm, hdid⟩
    have hdcs := (List.mem_filter.mp hdm).1
    have hdq := (mem_findNearUntriggered.mp hdcs).2
    exact hpredfalse d (mem_findNearUntriggered.mp hdcs).1 hdid
      (fun x hx => by
        simp only [alertQueryPred, Bool.and_eq_true] at hx
        exact hx.2) hdq
  · intro b hb hid
    rw [checkTripAlerts_fst] at hb
    rcases List.mem_map.mp hb with ⟨b0, hb0, hbw⟩
    have hb0id : b0.id = a.id := by
      rw [← hbw, writeAll_id] at hid
      exact hid
    have hnotouch : ∀ c ∈ (findNearUntriggered dist now store p 5000).filter
        (matchesTrigger dist p), c.id ≠ b0.id := by
      intro c hcm hcid
      have hccs := (List.mem_filter.mp hcm).1
      have hcq := (mem_findNearUntriggered.mp hccs).2
      exact hpredfalse c (mem_findNearUntriggered.mp hccs).1 (hcid.trans hb0id)
        (fun x hx => by
          simp only [alertQueryPred, Bool.and_eq_true] at hx
          exact hx.2) hcq
    rw [← hbw, writeAll_not_touched _ b0 hnotouch]
    exact nodup_id_inj hnodup hb0 ha hb0id
  · intro em hem ch d hshape
    rcases (sendProximityAlerts_prox_shape dist now store ul p lga cu trips rides
        em hem ch a.id d hshape).1 with ⟨x, hxm, hxid⟩
    have hxf := ((findProximityAlerts_perm dist now store p lga).mem_iff.mp hxm)
    rcases List.mem_filter.mp hxf with ⟨hxs, hxp⟩
    simp only [Bool.and_eq_true] at hxp
    have hxa : x = a := nodup_id_inj hnodup hxs ha hxid.symm
    rw [hxa] at hxp
    rw [hxp.1.2] at hexp
    cases hexp

/-- C3, witness: the theorem applied to the concrete expired alert
(`validUntil = -5`, evaluated at `now = 0`) at constant distance 10 m. -/
theorem claim3_witness :
    alertExpired.id ∉ (checkTripAlerts (distConst 10) 0 [alertExpired] p0).2.map Alert.id ∧
    (∀ b ∈ (checkTripAlerts (distConst 10) 0 [alertExpired] p0).1,
      b.id = alertExpired.id → b = alertExpired) ∧
    ∀ em ∈ sendProximityAlerts (distConst 10) 0 [alertExpired] [] p0 none 0 [] [],
      ∀ ch d, em ≠ Emission.proximityFloodAlert ch alertExpired.id d :=
  claim3_expired_never_matched (distConst 10) 0 [alertExpired] p0 [] none 0 [] []
    alertExpired (-5) (by decide) (by decide) rfl (by decide)

/-! ## C4 -/

/-- C4: both `calculateDistance` implementations compute exactly the
canonical haversine great-circle distance on a sphere of radius 6371 km —
`R * 2 * atan2(sqrt a, sqrt (1-a))` with
`a = sin^2(dLat/2) + cos lat1 * cos lat2 * sin^2(dLon/2)` — and not a
flat-plane approximation: the metres version equals it directly, and the
kilometres version equals it after the caller's `* 1000` unit conversion. -/
theorem claim4_distance_is_canonical_haversine (lat1 lon1 lat2 lon2 : ℝ) :
    calculateDistanceMeters lat1 lon1 lat2 lon2
      = haversineCanonical lat1 lon1 lat2 lon2 ∧
    calculateDistanceKm lat1 lon1 lat2 lon2 * 1000
      = haversineCanonical lat1 lon1 lat2 lon2 := by
  have hb : ∀ x : ℝ, x * (Real.pi / 180) = x * Real.pi / 180 := fun x =>
    (mul_div_assoc x Real.pi 180).symm
  constructor
  · simp only [calculateDistanceMeters, haversineCanonical]
    have ha :
        Real.sin ((lat2 - lat1) * Real.pi / 180 / 2)
            * Real.sin ((lat2 - lat1) * Real.pi / 180 / 2)
          + Real.cos (lat1 * Real.pi / 180) * Real.cos (lat2 * Real.pi / 180)
              * Real.sin ((lon2 - lon1) * Real.pi / 180 / 2)
              * Real.sin ((lon2 - lon1) * Real.pi / 180 / 2)
          = Real.sin ((lat2 - lat1) * Real.pi / 180 / 2) ^ 2
            + Real.cos (lat1 * Real.pi / 180) * Real.cos (lat2 * Real.pi / 180)
                * Real.sin ((lon2 - lon1) * Real.pi / 180 / 2) ^ 2 := by ring
    rw [ha]
    norm_num
  · simp only [calculateDistanceKm, haversineCanonical, deg2rad, hb]
    have ha :
        Real.sin ((lat2 - lat1) * Real.pi / 180 / 2)
            * Real.sin ((lat2 - lat1) * Real.pi / 180 / 2)
          + Real.cos (lat1 * Real.pi / 180) * Real.cos (lat2 * Real.pi / 180)
              * Real.sin ((lon2 - lon1) * Real.pi / 180 / 2)
              * Real.sin ((lon2 - lon1) * Real.pi / 180 / 2)
          = Real.sin ((lat2 - lat1) * Real.pi / 180 / 2) ^ 2
            + Real.cos (lat1 * Real.pi / 180) * Real.cos (lat2 * Real.pi / 180)
                * Real.sin ((lon2 - lon1) * Real.pi / 180 / 2) ^ 2 := by ring
    rw [ha]
    ring

/-! ## C5 -/

/-- C5 (code bug), evaluation at the failing input: two untriggered flood
alerts equidistant (500 m) from the query point with severities `"low"` and
`"high"`.  The spec (and the source's own comment "Higher severity first")
promise the high one first; but `.sort({ severity: -1 })` orders the stored
severity strings descending, and `"low" > "high"` lexicographically, so the
query returns the low-severity alert first. -/
theorem claim5_sort_eval :
    alertLow.severity = Severity.low ∧
    alertHigh.severity = Severity.high ∧
    getAlertsNearLocation (distConst 500) [alertLow, alertHigh] p0 1000
      = [alertLow, alertHigh] ∧
    mongoStrLe (sevStr Severity.low) (sevStr Severity.medium) = true ∧
    mongoStrLe (sevStr Severity.high) (sevStr Severity.low) = true := by
  refine ⟨rfl, rfl, ?_, ?_, ?_⟩ <;> decide

/-! ## C6 -/

/-- C6 (code bug), evaluation at the failing input: user 7 reports a
position (which `update-location` stores without any `lastUpdated` field)
one second before the staleness sweep runs; the sweep's
`!location.lastUpdated` branch then deletes the record, so the presence
table is empty even though the record was updated within 30 minutes. -/
theorem claim6_sweep_eval :
    (updateLocation (distConst 40) 0
        { userLocations := [], alertStore := [] } [] [] 7 reportLagos).1.userLocations
      = [(7, { latitude := 6, longitude := 3, lga := none, lastUpdated := none })] ∧
    sweepStale 1000
        (updateLocation (distConst 40) 0
          { userLocations := [], alertStore := [] } [] [] 7 reportLagos).1.userLocations
      = [] := by
  refine ⟨?_, ?_⟩ <;> decide

/-! ## C7 -/

/-- C7, counterexample.  The spec's scenario instantiated concretely: the
untriggered, unexpired, high-severity hazard with 1000 m trigger radius is
stored, and the (only) connected user, id 7, reports a position 40 m from it
(the distance oracle returns 40 m ≤ 1000 m).  The claim says the alert's
flag becomes true and exactly one `proximityFloodAlert` reaches the
reporter's `user:7` room and the region room; but the handler emits nothing
at all (it skips the reporting user and never writes the region room from
this path) and leaves the store — including the `triggered` flag — exactly
as it was. -/
theorem claim7_counterexample :
    distConst 40 ⟨reportLagos.latitude, reportLagos.longitude⟩ alertLagos.location
        ≤ alertLagos.distanceTrigger ∧
    alertLagos.triggered = false ∧
    notExpired 0 alertLagos = true ∧
    (updateLocation (distConst 40) 0 stateLagos [] [] 7 reportLagos).2 = [] ∧
    (updateLocation (distConst 40) 0 stateLagos [] [] 7 reportLagos).1.alertStore
      = [alertLagos] := by
  refine ⟨?_, rfl, rfl, ?_, ?_⟩ <;> decide

/-- C7 (amended): on an `update-location` report, the alert store is left
untouched (so the matched alert's `triggered` flag stays false), and every
`proximityFloodAlert` emitted goes to the `user:<id>` room of a connected
user — one present in the resulting `userLocations` table — other than the
reporting one, whose stored position is within 5000 m of the reported
position, the event carrying exactly that user-to-report distance; none to
the reporter's own room, the region room, or any ride/trip room. -/
theorem claim7_prox_goes_to_other_users (dist : GeoPoint → GeoPoint → ℚ)
    (now : ℤ) (st : SocketState) (trips : List TripRec) (rides : List RideRec)
    (uid : ℕ) (data : LocationData) :
    (updateLocation dist now st trips rides uid data).1.alertStore = st.alertStore ∧
    ∀ em ∈ (updateLocation dist now st trips rides uid data).2,
      ∀ ch aid d, em = Emission.proximityFloodAlert ch aid d →
        ∃ u uloc,
          (u, uloc) ∈ (updateLocation dist now st trips rides uid data).1.userLocations ∧
          ch = Channel.user u ∧ u ≠ uid ∧
          dist ⟨uloc.latitude, uloc.longitude⟩ ⟨data.latitude, data.longitude⟩ ≤ 5000 ∧
          d = dist ⟨uloc.latitude, uloc.longitude⟩ ⟨data.latitude, data.longitude⟩ := by
  constructor
  · rfl
  · intro em hem ch aid d hshape
    simp only [updateLocation] at hem ⊢
    exact (sendProximityAlerts_prox_shape dist now st.alertStore _
      ⟨data.latitude, data.longitude⟩ data.lga uid trips rides em hem ch aid d hshape).2

/-- C7, witness: the amended theorem at the concrete two-user scenario — the
reporter (id 7) and one other connected user (id 8) within range — where the
emission list is exactly one `proximityFloodAlert` to `user:8` at the
oracle distance 40 m. -/
theorem claim7_witness :
    (updateLocation (distConst 40) 0 stateLagosTwo [] [] 7 reportLagos).1.alertStore
      = stateLagosTwo.alertStore ∧
    ∃ u uloc,
      (u, uloc) ∈ (updateLocation (distConst 40) 0 stateLagosTwo [] [] 7
        reportLagos).1.userLocations ∧
      Channel.user 8 = Channel.user u ∧ u ≠ 7 ∧
      distConst 40 ⟨uloc.latitude, uloc.longitude⟩
        ⟨reportLagos.latitude, reportLagos.longitude⟩ ≤ 5000 ∧
      (40 : ℚ) = distConst 40 ⟨uloc.latitude, uloc.longitude⟩
        ⟨reportLagos.latitude, reportLagos.longitude⟩ := by
  refine ⟨(claim7_prox_goes_to_other_users (distConst 40) 0 stateLagosTwo [] [] 7
      reportLagos).1, ?_⟩
  exact (claim7_prox_goes_to_other_users (distConst 40) 0 stateLagosTwo [] [] 7
      reportLagos).2 (Emission.proximityFloodAlert (Channel.user 8) 1 40)
    (by decide) (Channel.user 8) 1 40 rfl

/-! ## C8 -/

/-- C8, counterexample: applying a severity update of `"low"` to an alert
currently at `"high"` — a new severity strictly below the current one, which
the claim says is a no-op — changes the stored severity to `"low"`:
`updateAlert` overwrites severity unconditionally and downgrades. -/
theorem claim8_counterexample :
    alertSevHigh.severity = Severity.high ∧
    updLow.severity = some Severity.low ∧
    (updateAlert [alertSevHigh] 4 updLow).map (fun r => r.2.severity)
      = some Severity.low ∧
    (updateAlert [alertSevHigh] 4 updLow).map (fun r => r.1)
      = some [applyUpdate alertSevHigh updLow] ∧
    (applyUpdate alertSevHigh updLow).severity ≠ alertSevHigh.severity := by
  refine ⟨rfl, rfl, ?_, ?_, ?_⟩ <;> decide

/-- C8 (amended): `updateAlert` applies any provided severity
unconditionally — upgrades and downgrades alike (so `high` after `low`
does set `high`, but `low` after `high` sets `low` rather than being a
no-op) — and leaves the severity unchanged exactly when the request carries
none. -/
theorem claim8_update_overwrites_severity (store : List Alert) (id : ℕ)
    (u : AlertUpdateReq) (alert : Alert)
    (h : store.find? (fun a => decide (a.id = id)) = some alert) :
    updateAlert store id u
      = some (saveAlert store (applyUpdate alert u), applyUpdate alert u) ∧
    (applyUpdate alert u).severity = u.severity.getD alert.severity := by
  constructor
  · unfold updateAlert
    rw [h]
  · rfl

/-- C8, witness: the amended theorem at the concrete downgrade input
(`severity: "low"` applied to the stored high-severity alert). -/
theorem claim8_witness :
    updateAlert [alertSevHigh] 4 updLow
      = some (saveAlert [alertSevHigh] (applyUpdate alertSevHigh updLow),
          applyUpdate alertSevHigh updLow) ∧
    (applyUpdate alertSevHigh updLow).severity
      = updLow.severity.getD alertSevHigh.severity :=
  claim8_update_overwrites_severity [alertSevHigh] 4 updLow alertSevHigh (by decide)

/-! ## C9 -/

/-- C9: a connection attempt with no credential is rejected with
`"No token provided"`, one with an invalid credential with the distinct
reason `"Invalid token"`, and in either failure case no inbound event of
that connection reaches a handler. -/
theorem claim9_auth_rejects_before_events (verify : String → Option ℕ) :
    socketAuthenticate verify none = Except.error "No token provided" ∧
    (∀ t : String, verify t = none →
      socketAuthenticate verify (some t) = Except.error "Invalid token") ∧
    ("No token provided" : String) ≠ "Invalid token" ∧
    ∀ (token : Option String) (msg : String) (events : List LocationData),
      socketAuthenticate verify token = Except.error msg →
      connectionEventsHandled verify token events = [] := by
  refine ⟨rfl, ?_, by decide, ?_⟩
  · intro t ht
    simp only [socketAuthenticate, ht]
  · intro token msg events herr
    unfold connectionEventsHandled
    rw [herr]

/-- C9, witness: the theorem applied to the all-rejecting verifier — an
invalid token gets the `"Invalid token"` reason, and a missing-token
connection has none of its queued events handled. -/
theorem claim9_witness :
    socketAuthenticate verifyNone (some "x") = Except.error "Invalid token" ∧
    connectionEventsHandled verifyNone none [reportLagos] = [] := by
  refine ⟨(claim9_auth_rejects_before_events verifyNone).2.1 "x" rfl, ?_⟩
  exact (claim9_auth_rejects_before_events verifyNone).2.2.2 none "No token provided"
    [reportLagos] rfl

/-! ## C10 -/

/-- C10: every alert returned by `get-nearby-hotspots` is a flood alert
that is untriggered and unexpired, at most 10 are returned, and an omitted
radius defaults to 5000 m. -/
theorem claim10_hotspots_shape (dist : GeoPoint → GeoPoint → ℚ) (now : ℤ)
    (store : List Alert) (p : GeoPoint) (radius : Option ℚ) (lga : Option String) :
    (getNearbyHotspots dist now store p radius lga).length ≤ 10 ∧
    (∀ b ∈ getNearbyHotspots dist now store p radius lga,
      b.type = AlertType.flood ∧ b.triggered = false ∧ notExpired now b = true) ∧
    hotspotRadius none = 5000 := by
  refine ⟨?_, ?_, rfl⟩
  · unfold getNearbyHotspots
    exact List.length_take_le 10 _
  · intro b hb
    unfold getNearbyHotspots at hb
    have hb1 := List.mem_of_mem_take hb
    rw [List.mem_insertionSort, List.mem_insertionSort] at hb1
    rcases List.mem_filter.mp hb1 with ⟨_, hp⟩
    simp only [Bool.and_eq_true, decide_eq_true_eq, Bool.not_eq_true'] at hp
    exact ⟨hp.1.1.1.2, hp.1.1.2, hp.1.2⟩

/-- C10, witness: the theorem applied to the concrete store holding the
Lagos hazard, whose single returned hotspot is checked to be a flood alert,
untriggered and unexpired. -/
theorem claim10_witness :
    alertLagos.type = AlertType.flood ∧ alertLagos.triggered = false ∧
    notExpired 0 alertLagos = true :=
  (claim10_hotspots_shape (distConst 40) 0 [alertLagos] p0 none none).2.1
    alertLagos (by decide)

end SafeRoute
